import Mathlib

/-!
Shallow embedding of the 3-gate stock analysis engine
(`src/stock_analyzer.py`, class `ZerodhaAnalyzer`) and proofs of the
spec claims about it.

Python floats are modelled as exact rationals (`ℚ`); the places where
IEEE special values (NaN / ±inf) are observable — the RSI computation —
use an explicit `PFloat` type.  Python `None`-able metric values are
`Option ℚ`; Python truthiness (`if x:` on an optional float) is the
`truthy` predicate below; `x or y` on optional floats is `pyOr`.
Python's `round(x, n)` (round-half-to-even) is `pyRound1` / `pyRound2`.
-/

/-- Python truthiness of an optional float: `None` and `0.0` are falsy. -/
def truthy : Option ℚ → Bool
  | none => false
  | some v => v ≠ 0

/-- Python `x or y` on optional floats: returns `x` when truthy, else `y`. -/
def pyOr (x y : Option ℚ) : Option ℚ :=
  if truthy x then x else y

/-- Python `round` to an integer: round half to even (banker's rounding),
applied to the exact rational value. -/
def pyRoundInt (q : ℚ) : ℤ :=
  if q - ⌊q⌋ < 1/2 then ⌊q⌋
  else if q - ⌊q⌋ > 1/2 then ⌊q⌋ + 1
  else if ⌊q⌋ % 2 = 0 then ⌊q⌋ else ⌊q⌋ + 1

/-- Python `round(x, 1)`. -/
def pyRound1 (q : ℚ) : ℚ := (pyRoundInt (q * 10) : ℚ) / 10

/-- Python `round(x, 2)`. -/
def pyRound2 (q : ℚ) : ℚ := (pyRoundInt (q * 100) : ℚ) / 100

/-- Sector category as returned by `detect_sector_type`. -/
inductive SectorType where
  | banking
  | nbfc
  | general
deriving DecidableEq, Repr

/-- Tri-state outcome of one checklist criterion: the `'pass'` field of a
checklist entry is `True`, `False` or `None` in the source. -/
inductive Tri where
  | pass
  | fail
  | na
deriving DecidableEq, Repr

/-- The merged fundamentals mapping built by `get_fundamentals`
(lines 379–418): every metric is optional (`None`-able in the source).
`fii_holding` / `dii_holding` are absent from the primary result and only
appear when the secondary provider supplies them. -/
structure Fundamentals where
  market_cap : Option ℚ := none
  sector : String := "Unknown"
  industry : String := "Unknown"
  pe : Option ℚ := none
  forward_pe : Option ℚ := none
  pb : Option ℚ := none
  roe : Option ℚ := none
  roce : Option ℚ := none
  roa : Option ℚ := none
  de_ratio : Option ℚ := none
  current_ratio : Option ℚ := none
  gross_margin : Option ℚ := none
  operating_margin : Option ℚ := none
  profit_margin : Option ℚ := none
  dividend_yield : Option ℚ := none
  payout_ratio : Option ℚ := none
  revenue : Option ℚ := none
  total_debt : Option ℚ := none
  total_cash : Option ℚ := none
  ocf : Option ℚ := none
  fcf : Option ℚ := none
  earnings_growth_qoq : Option ℚ := none
  revenue_growth_qoq : Option ℚ := none
  rev_cagr_3y : Option ℚ := none
  pat_cagr_3y : Option ℚ := none
  book_value : Option ℚ := none
  eps : Option ℚ := none
  insider_pct : Option ℚ := none
  promoter_holding : Option ℚ := none
  beta : Option ℚ := none
  enterprise_value : Option ℚ := none
  ev_ebitda : Option ℚ := none
  ev_revenue : Option ℚ := none
  gnpa : Option ℚ := none
  nnpa : Option ℚ := none
  financing_margin : Option ℚ := none
  fii_holding : Option ℚ := none
  dii_holding : Option ℚ := none
  data_source : String := "yfinance"
deriving DecidableEq, Repr

/-- Fields parsed from the secondary provider (Screener.in) page by
`fetch_from_screener`; all optional. -/
structure ScreenerData where
  pe : Option ℚ := none
  pb : Option ℚ := none
  roe : Option ℚ := none
  roce : Option ℚ := none
  roce_annual : Option ℚ := none
  book_value : Option ℚ := none
  dividend_yield : Option ℚ := none
  eps : Option ℚ := none
  market_cap_cr : Option ℚ := none
  de_ratio : Option ℚ := none
  rev_cagr_3y : Option ℚ := none
  pat_cagr_3y : Option ℚ := none
  opm : Option ℚ := none
  promoter_holding : Option ℚ := none
  ocf_cr : Option ℚ := none
  gnpa : Option ℚ := none
  nnpa : Option ℚ := none
  financing_margin : Option ℚ := none
  fii_holding : Option ℚ := none
  dii_holding : Option ℚ := none
deriving DecidableEq, Repr

/-- The merge step of `get_fundamentals` (lines 420–482): starting from the
primary (yfinance) result, a present secondary (Screener.in) value wins for
the listed fields.  `pe`, `pb`, `book_value`, `eps`, `market_cap_cr` are
checked with Python truthiness (`if screener.get('pe'):`), the rest with
`is not None`.  `roce_annual` overrides `roce` because its assignment comes
second in the source.  `market_cap_cr` and `ocf_cr` are ×1e7 (Cr → absolute).
`insider_pct` is overwritten with the secondary promoter holding.  The
sequential `if`-assignments in the source touch pairwise distinct fields
(the two ROCE writes are combined here with `Option.or`), so they are
rendered as one record update. -/
def mergeScreener (r : Fundamentals) (scr : Option ScreenerData) : Fundamentals :=
  match scr with
  | none => r
  | some s =>
    { r with
      data_source := "screener.in + yfinance"
      pe := if truthy s.pe then s.pe else r.pe
      pb := if truthy s.pb then s.pb else r.pb
      roe := if s.roe.isSome then s.roe else r.roe
      roce := if s.roce_annual.isSome then s.roce_annual
              else if s.roce.isSome then s.roce else r.roce
      book_value := if truthy s.book_value then s.book_value else r.book_value
      dividend_yield := if s.dividend_yield.isSome then s.dividend_yield else r.dividend_yield
      eps := if truthy s.eps then s.eps else r.eps
      market_cap := if truthy s.market_cap_cr then s.market_cap_cr.map (· * 10000000)
                    else r.market_cap
      de_ratio := if s.de_ratio.isSome then s.de_ratio else r.de_ratio
      rev_cagr_3y := if s.rev_cagr_3y.isSome then s.rev_cagr_3y else r.rev_cagr_3y
      pat_cagr_3y := if s.pat_cagr_3y.isSome then s.pat_cagr_3y else r.pat_cagr_3y
      operating_margin := if s.opm.isSome then s.opm else r.operating_margin
      promoter_holding := if s.promoter_holding.isSome then s.promoter_holding
                          else r.promoter_holding
      insider_pct := if s.promoter_holding.isSome then s.promoter_holding else r.insider_pct
      ocf := if s.ocf_cr.isSome then s.ocf_cr.map (· * 10000000) else r.ocf
      gnpa := if s.gnpa.isSome then s.gnpa else r.gnpa
      nnpa := if s.nnpa.isSome then s.nnpa else r.nnpa
      financing_margin := if s.financing_margin.isSome then s.financing_margin
                          else r.financing_margin
      fii_holding := if s.fii_holding.isSome then s.fii_holding else r.fii_holding
      dii_holding := if s.dii_holding.isSome then s.dii_holding else r.dii_holding }

/-- Criterion pass/fail from a boolean condition. -/
def triOf (b : Prop) [Decidable b] : Tri :=
  if b then .pass else .fail

/-- Criterion 1 of the general checklist: gross/operating margin > 20
(`margin = fund.get('gross_margin') or fund.get('operating_margin')`). -/
def genCrit1 (f : Fundamentals) : Tri :=
  match pyOr f.gross_margin f.operating_margin with
  | some m => triOf (m > 20)
  | none => .na

/-- Criterion 2: ROE > 15. -/
def genCrit2 (f : Fundamentals) : Tri :=
  match f.roe with
  | some r => triOf (r > 15)
  | none => .na

/-- Criterion 3: ROCE > 15, falling back to ROA > 5, then to a strong-ROE
proxy (`roe > 20` ⇒ pass, else not assessed). -/
def genCrit3 (f : Fundamentals) : Tri :=
  match f.roce with
  | some rc => triOf (rc > 15)
  | none =>
    match f.roa with
    | some ra => triOf (ra > 5)
    | none =>
      match f.roe with
      | some r => if r > 20 then .pass else .na
      | none => .na

/-- Criterion 4: debt/equity < 1. -/
def genCrit4 (f : Fundamentals) : Tri :=
  match f.de_ratio with
  | some de => triOf (de < 1)
  | none => .na

/-- Criterion 5: interest-coverage proxy.  Nearly debt-free (D/E < 0.05)
passes outright; else OCF/(debt×0.08) > 3 when OCF and positive debt are
known. -/
def genCrit5Coverage (f : Fundamentals) : Tri :=
  match f.ocf, f.total_debt with
  | some o, some d => if d > 0 then triOf (o / (d * (8/100)) > 3) else .na
  | _, _ => .na

/-- Criterion 5, main entry: `de is not None and de < 0.05` passes outright,
else the coverage proxy above. -/
def genCrit5 (f : Fundamentals) : Tri :=
  match f.de_ratio with
  | some de => if de < 1/20 then .pass else genCrit5Coverage f
  | none => genCrit5Coverage f

/-- Criterion 6: operating cash flow positive. -/
def genCrit6 (f : Fundamentals) : Tri :=
  match f.ocf with
  | some o => triOf (o > 0)
  | none => .na

/-- Criterion 7: revenue CAGR > 10, falling back to QoQ revenue growth
(scaled ×100 when reported as a fraction of magnitude < 5). -/
def genCrit7 (f : Fundamentals) : Tri :=
  match f.rev_cagr_3y with
  | some rc => triOf (rc > 10)
  | none =>
    match f.revenue_growth_qoq with
    | some rg =>
      let rgPct := if |rg| < 5 then rg * 100 else rg
      triOf (rgPct > 10)
    | none => .na

/-- Criterion 8: PAT CAGR > 12, falling back to QoQ earnings growth. -/
def genCrit8 (f : Fundamentals) : Tri :=
  match f.pat_cagr_3y with
  | some pc => triOf (pc > 12)
  | none =>
    match f.earnings_growth_qoq with
    | some eg =>
      let egPct := if |eg| < 5 then eg * 100 else eg
      triOf (egPct > 12)
    | none => .na

/-- Criterion 9: promoter (fallback insider) holding > 50
(`fund.get('promoter_holding') or fund.get('insider_pct')`). -/
def genCrit9 (f : Fundamentals) : Tri :=
  match pyOr f.promoter_holding f.insider_pct with
  | some p => triOf (p > 50)
  | none => .na

/-- Criterion 10: free cash flow positive. -/
def genCrit10 (f : Fundamentals) : Tri :=
  match f.fcf with
  | some v => triOf (v > 0)
  | none => .na

/-- The ten tri-state outcomes of the general-sector checklist. -/
def generalChecklist (f : Fundamentals) : List Tri :=
  [genCrit1 f, genCrit2 f, genCrit3 f, genCrit4 f, genCrit5 f,
   genCrit6 f, genCrit7 f, genCrit8 f, genCrit9 f, genCrit10 f]

/-- Banking criterion 1: ROE > 12. -/
def bankCrit1 (f : Fundamentals) : Tri :=
  match f.roe with
  | some r => triOf (r > 12)
  | none => .na

/-- Banking criterion 2: ROA > 1. -/
def bankCrit2 (f : Fundamentals) : Tri :=
  match f.roa with
  | some r => triOf (r > 1)
  | none => .na

/-- Banking criterion 3: GNPA < 3, falling back to P/B < 3. -/
def bankCrit3 (f : Fundamentals) : Tri :=
  match f.gnpa with
  | some g => triOf (g < 3)
  | none =>
    match f.pb with
    | some pb => triOf (pb < 3)
    | none => .na

/-- Banking criterion 4: NNPA < 1.5, falling back to P/B < 3. -/
def bankCrit4 (f : Fundamentals) : Tri :=
  match f.nnpa with
  | some v => triOf (v < 3/2)
  | none =>
    match f.pb with
    | some pb => triOf (pb < 3)
    | none => .na

/-- Banking criterion 5: revenue CAGR > 10 (no QoQ fallback). -/
def bankCrit5 (f : Fundamentals) : Tri :=
  match f.rev_cagr_3y with
  | some rc => triOf (rc > 10)
  | none => .na

/-- Banking criterion 6: PAT CAGR > 12 (no QoQ fallback). -/
def bankCrit6 (f : Fundamentals) : Tri :=
  match f.pat_cagr_3y with
  | some pc => triOf (pc > 12)
  | none => .na

/-- Banking criterion 7: promoter holding ≥ sector threshold
(20 for banking — RBI cap — and 50 for NBFC). -/
def bankCrit7 (f : Fundamentals) (st : SectorType) : Tri :=
  match pyOr f.promoter_holding f.insider_pct with
  | some p =>
    let threshold : ℚ := if st = .banking then 20 else 50
    triOf (p ≥ threshold)
  | none => .na

/-- Banking criterion 8: dividend yield > 0.5. -/
def bankCrit8 (f : Fundamentals) : Tri :=
  match f.dividend_yield with
  | some d => triOf (d > 1/2)
  | none => .na

/-- Banking criterion 9: P/E < 20. -/
def bankCrit9 (f : Fundamentals) : Tri :=
  match f.pe with
  | some pe => triOf (pe < 20)
  | none => .na

/-- Banking criterion 10: P/B < 3. -/
def bankCrit10 (f : Fundamentals) : Tri :=
  match f.pb with
  | some pb => triOf (pb < 3)
  | none => .na

/-- The ten tri-state outcomes of the banking/NBFC checklist. -/
def bankingChecklist (f : Fundamentals) (st : SectorType) : List Tri :=
  [bankCrit1 f, bankCrit2 f, bankCrit3 f, bankCrit4 f, bankCrit5 f,
   bankCrit6 f, bankCrit7 f st, bankCrit8 f, bankCrit9 f, bankCrit10 f]

/-- `score`: number of pass criteria. -/
def scoreOf (l : List Tri) : ℕ := l.countP (· == Tri.pass)

/-- `assessed`: number of non-N/A criteria. -/
def assessedOf (l : List Tri) : ℕ := l.countP (· != Tri.na)

/-- Gate 1 pass rule (line 692 / 836):
`(assessed >= 5 and score / assessed >= 0.7) or score >= 7`. -/
def fundGatePass (score assessed : ℕ) : Bool :=
  (decide (5 ≤ assessed) && decide ((score : ℚ) / assessed ≥ 7/10))
    || decide (7 ≤ score)

/-- Result record of Gate 1 (`apply_fundamental_checklist` /
`_banking_fundamental_checklist`). -/
structure FundResult where
  checklist : List Tri
  score : ℕ
  assessed : ℕ
  total : ℕ
  normalized : ℚ
  pass_rate : ℚ
  gate_pass : Bool
deriving DecidableEq, Repr

/-- Assemble the Gate 1 result from the tri-state list (lines 686–702 and
831–846: identical closing logic in both rubrics). -/
def mkFundResult (l : List Tri) : FundResult :=
  let s := scoreOf l
  let a := assessedOf l
  { checklist := l
    score := s
    assessed := a
    total := 10
    normalized := if a > 0 then pyRound1 ((s : ℚ) / a * 10) else 0
    pass_rate := pyRound1 ((s : ℚ) / (max a 1) * 100)
    gate_pass := fundGatePass s a }

/-- Gate 1: `apply_fundamental_checklist`, dispatching to the banking
rubric for banking/NBFC sectors. -/
def applyFundamentalChecklist (f : Fundamentals) (st : SectorType) : FundResult :=
  match st with
  | .banking => mkFundResult (bankingChecklist f .banking)
  | .nbfc => mkFundResult (bankingChecklist f .nbfc)
  | .general => mkFundResult (generalChecklist f)

/-- Gate 2 verdict labels (`'N/A'` in the source is the spec's
NOT_AVAILABLE). -/
inductive ValVerdict where
  | CHEAP
  | FAIR
  | RICH
  | EXTREME
  | NA
deriving DecidableEq, Repr

/-- `growth = pat_cagr or (fund.get('earnings_growth_qoq') or 0) * 100`
(line 868): Python `or` on the optional floats, then ×100 on the fallback. -/
def valGrowth (f : Fundamentals) : ℚ :=
  if truthy f.pat_cagr_3y then f.pat_cagr_3y.getD 0
  else (if truthy f.earnings_growth_qoq then f.earnings_growth_qoq.getD 0 else 0) * 100

/-- PEG value when the PEG lens applies (`if pe and growth and growth > 0`),
rounded to 2 decimals as in the source. -/
def pegValue (f : Fundamentals) : Option ℚ :=
  match f.pe with
  | some pe =>
    let growth := valGrowth f
    if pe ≠ 0 ∧ growth ≠ 0 ∧ growth > 0 then some (pyRound2 (pe / growth)) else none
  | none => none

/-- PEG lens signal (lines 866–885). -/
def pegSignal (f : Fundamentals) : Option ℤ :=
  (pegValue f).map fun peg =>
    if peg < 1/2 then 2
    else if peg < 1 then 1
    else if peg ≤ 2 then 0
    else if peg ≤ 5 then -1
    else -2

/-- Absolute P/E lens signal with sector-specific thresholds
(lines 887–905). -/
def peSignal (f : Fundamentals) (st : SectorType) : Option ℤ :=
  f.pe.map fun pe =>
    let t : ℚ × ℚ × ℚ := if st = .banking then (10, 15, 25) else (15, 25, 40)
    if pe < t.1 then 1
    else if pe < t.2.1 then 0
    else if pe < t.2.2 then -1
    else -2

/-- P/B-vs-ROE lens signal (lines 907–931); applies only when both P/B and
ROE are present. -/
def pbRoeSignal (f : Fundamentals) (st : SectorType) : Option ℤ :=
  match f.pb, f.roe with
  | some pb, some roe =>
    if st = .banking ∨ st = .nbfc then
      if pb < 3/2 ∧ roe > 15 then some 2
      else if pb < 5/2 ∧ roe > 12 then some 0
      else some (-1)
    else
      if pb < 3 ∧ roe > 15 then some 1
      else if pb < 6 ∧ roe > 20 then some 0
      else if pb < 8 then some (-1)
      else some (-2)
  | _, _ => none

/-- Earnings-yield lens signal (`if pe and pe > 0`, lines 936–947): yield
100/PE against the ~7% bond benchmark. -/
def eySignal (f : Fundamentals) : Option ℤ :=
  match f.pe with
  | some pe =>
    if pe ≠ 0 ∧ pe > 0 then
      let ey := pyRound2 (100 / pe)
      if ey > 7 * (3/2) then some 1
      else if ey > 7 then some 0
      else some (-1)
    else none
  | none => none

/-- Dividend-yield bonus signal (`dy = fund.get('dividend_yield') or 0;
if dy and dy > 3`, lines 949–952). -/
def dySignal (f : Fundamentals) : Option ℤ :=
  let dy := if truthy f.dividend_yield then f.dividend_yield.getD 0 else 0
  if dy ≠ 0 ∧ dy > 3 then some 1 else none

/-- EV/EBITDA lens signal (lines 956–966). -/
def evSignal (f : Fundamentals) : Option ℤ :=
  f.ev_ebitda.map fun ev =>
    if ev < 10 then 1
    else if ev < 20 then 0
    else -1

/-- The list of applied lens signals, in source order (`scores`). -/
def lensSignals (f : Fundamentals) (st : SectorType) : List ℤ :=
  [pegSignal f, peSignal f st, pbRoeSignal f st, eySignal f, dySignal f,
   evSignal f].reduceOption

/-- Result record of Gate 2 (`assess_valuation`).  The `details` strings are
presentational and omitted. -/
structure ValResult where
  verdict : ValVerdict
  score_sum : ℤ
  gate_pass : Option Bool
  peg : Option ℚ
deriving DecidableEq, Repr

/-- Verdict banding over the signal sum (lines 978–990). -/
def valVerdictOfSum (total : ℤ) : ValVerdict × Bool :=
  if total ≥ 3 then (.CHEAP, true)
  else if total ≥ 0 then (.FAIR, true)
  else if total ≥ -2 then (.RICH, false)
  else (.EXTREME, false)

/-- Gate 2: `assess_valuation` (lines 852–998). -/
def assessValuation (f : Fundamentals) (st : SectorType) : ValResult :=
  let sigs := lensSignals f st
  if sigs.isEmpty then
    { verdict := .NA, score_sum := 0, gate_pass := none, peg := pegValue f }
  else
    let total := sigs.sum
    let vb := valVerdictOfSum total
    { verdict := vb.1, score_sum := total, gate_pass := some vb.2, peg := pegValue f }

/-- Red flags: the source builds flag strings; the substring tests on
line 1032 (`'Extreme Debt' in f or 'Negative ROE' in f`) match exactly the
flags built with those prefixes, so flags are modelled by kind. -/
inductive FlagKind where
  | negOCF
  | extremeDebt
  | negROE
  | lowPromoter
deriving DecidableEq, Repr

/-- Result record of `check_red_flags`. -/
structure RedFlagReport where
  flags : List FlagKind
  count : ℕ
  critical : Bool
deriving DecidableEq, Repr

/-- `check_red_flags` (lines 1004–1038).  Negative-OCF and extreme-debt
flags are suppressed for banking/NBFC; the low-promoter flag is suppressed
when combined institutional (FII+DII) holding is ≥ 70. -/
def checkRedFlags (f : Fundamentals) (st : SectorType) : RedFlagReport :=
  let isFin := st = .banking ∨ st = .nbfc
  let ocfFlag : List FlagKind :=
    match f.ocf with
    | some o => if o < 0 ∧ ¬isFin then [.negOCF] else []
    | none => []
  let deFlag : List FlagKind :=
    match f.de_ratio with
    | some de => if de > 3 ∧ ¬isFin then [.extremeDebt] else []
    | none => []
  let roeFlag : List FlagKind :=
    match f.roe with
    | some r => if r < 0 then [.negROE] else []
    | none => []
  let promFlag : List FlagKind :=
    match pyOr f.promoter_holding f.insider_pct with
    | some p =>
      let institutional := f.fii_holding.getD 0 + f.dii_holding.getD 0
      if p < 10 ∧ institutional < 70 then [.lowPromoter] else []
    | none => []
  let flags := ocfFlag ++ deFlag ++ roeFlag ++ promFlag
  { flags := flags
    count := flags.length
    critical := flags.any fun k => k == .extremeDebt || k == .negROE }

/-- Result record of `calculate_rrr`. -/
structure RRRResult where
  rrr : ℚ
  risk_pct : ℚ
  reward_pct : ℚ
  valid : Bool
deriving DecidableEq, Repr

/-- `calculate_rrr` (lines 1165–1176): zeroed, invalid result when the risk
(current − support) is non-positive; otherwise `valid` compares the
unrounded ratio against 1.5. -/
def calculateRRR (current support resistance : ℚ) : RRRResult :=
  let risk := current - support
  let reward := resistance - current
  if risk ≤ 0 then { rrr := 0, risk_pct := 0, reward_pct := 0, valid := false }
  else
    { rrr := pyRound2 (reward / risk)
      risk_pct := pyRound2 (risk / current * 100)
      reward_pct := pyRound2 (reward / current * 100)
      valid := reward / risk ≥ 3/2 }

/-- Pandas/IEEE float value as observable in the RSI pipeline: a finite
exact value, ±infinity, or NaN. -/
inductive PFloat where
  | nan
  | inf
  | ninf
  | fin (q : ℚ)
deriving DecidableEq, Repr

/-- Float division of finite values as pandas performs it: finite quotient,
signed infinity on x/0 with x ≠ 0, NaN on 0/0. -/
def pandasDiv (a b : ℚ) : PFloat :=
  if b ≠ 0 then .fin (a / b)
  else if a > 0 then .inf
  else if a < 0 then .ninf
  else .nan

/-- `100 - 100 / (1 + rs)` on the float value `rs` (line 1049):
`1 + inf = inf` so `rs = inf` gives exactly 100; NaN propagates. -/
def rsiFromRS : PFloat → PFloat
  | .fin q =>
    if 1 + q ≠ 0 then .fin (100 - 100 / (1 + q))
    else .ninf
  | .inf => .fin 100
  | .ninf => .fin 100
  | .nan => .nan

/-- Python `round(x, 2)` lifted to float values (`round(nan) = nan`,
`round(inf) = inf`). -/
def pyRound2F : PFloat → PFloat
  | .fin q => .fin (pyRound2 q)
  | x => x

/-- The last `n` elements of a list. -/
def lastN (n : ℕ) (l : List ℚ) : List ℚ := l.drop (l.length - n)

/-- `data['Close'].diff()` without its leading NaN: the session-over-session
close changes. -/
def rsiDeltas (closes : List ℚ) : List ℚ :=
  List.zipWith (fun b a => b - a) closes.tail closes

/-- `calculate_rsi` (lines 1044–1050) over the close series: rolling(14)
means of per-session gains and losses, evaluated at the last session.  With
fewer than 15 closes the last rolling window is incomplete and pandas yields
NaN. -/
def calculate_rsi (closes : List ℚ) : PFloat :=
  if closes.length < 15 then .nan
  else
    let window := lastN 14 (rsiDeltas closes)
    let gainMean := (window.map fun d => max d 0).sum / 14
    let lossMean := (window.map fun d => max (-d) 0).sum / 14
    pyRound2F (rsiFromRS (pandasDiv gainMean lossMean))

/-- RSI range predicate: a finite value inside `[0, 100]` (NaN and ±inf are
outside every range). -/
def pfInRange (x : PFloat) : Bool :=
  match x with
  | .fin q => decide (0 ≤ q ∧ q ≤ 100)
  | _ => false

/-- Candlestick patterns producible by `detect_candlestick_pattern`; the
`['No clear pattern']` sentinel is the empty list. -/
inductive Pattern where
  | doji
  | hammerBullish
  | invertedHammer
  | bullishMarubozu
  | bearishMarubozu
  | bullishEngulfing
  | bearishEngulfing
deriving DecidableEq, Repr

/-- Prior trend label from `detect_candlestick_pattern`. -/
inductive Trend where
  | uptrend
  | downtrend
  | unknown
deriving DecidableEq, Repr

/-- Candlestick block of the technical analysis dict. -/
structure CandlestickResult where
  patterns : List Pattern
  prior_trend : Trend
deriving DecidableEq, Repr

/-- MACD block (`calculate_macd`). -/
structure MACDResult where
  macd : ℚ
  signal : ℚ
  histogram : ℚ
  bullish : Bool
deriving DecidableEq, Repr

/-- Moving-averages block (`calculate_moving_averages`): the above/below
flags are `None` when the average itself is unavailable. -/
structure MAResult where
  current_price : ℚ
  ma_20 : ℚ
  ma_50 : Option ℚ
  ma_200 : Option ℚ
  above_50_dma : Option Bool
  above_200_dma : Option Bool
deriving DecidableEq, Repr

/-- Support/resistance block (`find_support_resistance`). -/
structure SRLevels where
  high_52w : ℚ
  low_52w : ℚ
  immediate_support : ℚ
  immediate_resistance : ℚ
  strong_support : ℚ
  strong_resistance : ℚ
deriving DecidableEq, Repr

/-- Volume block (`analyze_volume`), restricted to the fields Gate 3 reads. -/
structure VolumeResult where
  volume_ratio : ℚ
  above_average : Bool
deriving DecidableEq, Repr

/-- The technical-analysis dict consumed by `apply_checklist` and
`generate_verdict`. -/
structure TechAnalysis where
  rsi : PFloat
  macd : MACDResult
  moving_averages : MAResult
  support_resistance : SRLevels
  volume : VolumeResult
  candlestick : CandlestickResult
  rrr : RRRResult
deriving DecidableEq, Repr

/-- `rsi < 70` as Python evaluates it on a float that may be NaN
(NaN comparisons are false). -/
def PFloat.ltQ : PFloat → ℚ → Bool
  | .fin q, c => decide (q < c)
  | .inf, _ => false
  | .ninf, _ => true
  | .nan, _ => false

/-- The bullish-pattern substring test of line 1204: the names searched for
('Hammer', 'Bullish Engulfing', 'Bullish Marubozu', 'Morning Star',
'Inverted Hammer') match exactly these produced patterns. -/
def hasBullishPattern (ps : List Pattern) : Bool :=
  ps.any fun p =>
    p == .hammerBullish || p == .invertedHammer ||
    p == .bullishMarubozu || p == .bullishEngulfing

/-- The bearish-pattern substring test of line 1206 ('Bearish Engulfing',
'Bearish Marubozu', 'Evening Star'). -/
def hasBearishPattern (ps : List Pattern) : Bool :=
  ps.any fun p => p == .bearishEngulfing || p == .bearishMarubozu

/-- Result record of Gate 3 (`apply_checklist`). -/
structure TechResult where
  checklist : List Bool
  score : ℕ
  total : ℕ
  pass_rate : ℚ
  gate_pass : Bool
deriving DecidableEq, Repr

/-- Gate 3 pass rule (line 1252): `gate_pass = score >= 5`. -/
def techGatePass (score : ℕ) : Bool := decide (5 ≤ score)

/-- Gate 3: `apply_checklist` (lines 1182–1260), seven boolean criteria. -/
def applyChecklist (a : TechAnalysis) : TechResult :=
  let hasPattern := !a.candlestick.patterns.isEmpty
  let item1 := hasPattern
  let item2 :=
    if !hasPattern then false
    else if hasBullishPattern a.candlestick.patterns then
      a.candlestick.prior_trend == .downtrend
    else if hasBearishPattern a.candlestick.patterns then
      a.candlestick.prior_trend == .uptrend
    else true
  let current := a.moving_averages.current_price
  let supportDist := |current - a.support_resistance.immediate_support| / current * 100
  let item3 := decide (supportDist ≤ 4)
  let item4 := a.volume.above_average
  let item5 := a.rrr.valid
  let item6 := a.macd.bullish && a.rsi.ltQ 70
  let item7 := (a.moving_averages.above_50_dma == some true)
    && (a.moving_averages.above_200_dma != some false)
  let items := [item1, item2, item3, item4, item5, item6, item7]
  let score := items.count true
  { checklist := items
    score := score
    total := 7
    pass_rate := pyRound1 ((score : ℚ) / 7 * 100)
    gate_pass := techGatePass score }

/-- Final verdict labels. -/
inductive VerdictKind where
  | BUY
  | ACCUMULATE
  | WAIT
  | AVOID
  | SKIP
deriving DecidableEq, Repr

/-- Confidence labels. -/
inductive Confidence where
  | HIGH
  | MEDIUM
  | LOW
deriving DecidableEq, Repr

/-- Trade setup attached to BUY/ACCUMULATE verdicts. -/
structure TradeSetup where
  entry : ℚ
  stoploss : ℚ
  target_1 : ℚ
  target_2 : ℚ
  target_3 : ℚ
  position_pct : ℕ
deriving DecidableEq, Repr

/-- Result record of `generate_verdict`.  The human-readable `action` text
and the `gates` display strings are presentational and omitted. -/
structure VerdictResult where
  verdict : VerdictKind
  confidence : Confidence
  trade_setup : Option TradeSetup
  position_pct : ℕ
deriving DecidableEq, Repr

/-- `generate_verdict` (lines 1266–1378): the decision table over the three
gate outcomes and the critical red flag.  Gate 2's `gate_pass` may be `None`
(`N/A` valuation); `g1 and g2 and g3` is Python truthiness, so `None` acts
as a failing gate. -/
def generateVerdict (fund : FundResult) (val : ValResult) (tech : TechResult)
    (red : RedFlagReport) (current : ℚ) (sr : SRLevels) : VerdictResult :=
  let g1 := fund.gate_pass
  let g2 := val.gate_pass == some true
  let g3 := tech.gate_pass
  let techScore := tech.score
  let core : VerdictKind × Confidence × ℕ :=
    if red.critical then (.AVOID, .HIGH, 0)
    else if g1 && g2 && g3 then
      if fund.normalized ≥ 8 ∧ techScore ≥ 6 ∧
          (val.verdict = .CHEAP ∨ val.verdict = .FAIR) then
        (.BUY, .HIGH, 8)
      else (.BUY, .MEDIUM, 5)
    else if g1 && g2 && !g3 then
      if techScore ≥ 4 then (.ACCUMULATE, .MEDIUM, 4) else (.WAIT, .LOW, 0)
    else if g1 && !g2 then (.WAIT, .MEDIUM, 0)
    else if g2 && !g1 then
      if techScore ≥ 5 then (.WAIT, .LOW, 0) else (.AVOID, .MEDIUM, 0)
    else if g3 && !g1 && !g2 then (.SKIP, .HIGH, 0)
    else (.AVOID, .HIGH, 0)
  let tradeSetup : Option TradeSetup :=
    if core.1 = .BUY ∨ core.1 = .ACCUMULATE then
      some
        { entry := if core.1 = .BUY ∧ core.2.1 = .HIGH then current
                   else sr.immediate_support
          stoploss := sr.strong_support
          target_1 := sr.immediate_resistance
          target_2 := sr.strong_resistance
          target_3 := sr.high_52w
          position_pct := core.2.2 }
    else none
  { verdict := core.1
    confidence := core.2.1
    trade_setup := tradeSetup
    position_pct := core.2.2 }

/-- Symbol strings are modelled as character lists so that the resolver's
string manipulation stays computable in proofs. -/
abbrev SymStr := List Char

/-- Python `str.strip()`: whitespace removed from both ends. -/
def symTrim (s : SymStr) : SymStr :=
  ((s.dropWhile Char.isWhitespace).reverse.dropWhile Char.isWhitespace).reverse

/-- Python `str.upper()`. -/
def symUpper (s : SymStr) : SymStr := s.map Char.toUpper

/-- Attempt list of `_resolve_ticker` (lines 322–329).  The source's first
branch (upper-cased symbol contains `.NS`, `.BO` or `^`) and second branch
(symbol contains any `.`) both yield `[symbol]`, and together they trigger
exactly when the symbol contains a dot or a caret, so they are rendered as
one test. -/
def attemptsFor (s : SymStr) : List SymStr :=
  if s.contains '.' || s.contains '^' then [s]
  else [s, s ++ ".NS".data, s ++ ".BO".data]

/-- One loop iteration of `_resolve_ticker` (lines 331–338): the provider
call either raises (`.error`, the `except: continue` path) or returns a
series, accepted when it has ≥ 50 sessions. -/
def attemptSuccess (fetch : SymStr → Except Unit (List ℚ)) (a : SymStr) :
    Option (List ℚ × SymStr) :=
  match fetch a with
  | .ok d => if 50 ≤ d.length then some (d, symUpper a) else none
  | .error _ => none

/-- `_resolve_ticker` (lines 319–340): first accepted attempt wins; when
none succeeds the result is the typed no-data outcome
`(none, symbol.upper())` — the function itself never raises. -/
def resolveTicker (fetch : SymStr → Except Unit (List ℚ)) (symbol : SymStr) :
    Option (List ℚ) × SymStr :=
  let s := symTrim symbol
  match (attemptsFor s).findSome? (attemptSuccess fetch) with
  | some (d, u) => (some d, u)
  | none => (none, symUpper s)

/-- The guard in `analyze_stock` (lines 1389–1392): a failed resolution is
surfaced as the typed insufficient-data outcome (`None`), not an
exception. -/
def analyzeStockOutcome (fetch : SymStr → Except Unit (List ℚ)) (symbol : SymStr) :
    Option (List ℚ × SymStr) :=
  match resolveTicker fetch symbol with
  | (some d, u) => some (d, u)
  | (none, _) => none

section Helpers

/-- In any tri-state list the pass count is at most the assessed count. -/
theorem scoreOf_le_assessedOf (l : List Tri) : scoreOf l ≤ assessedOf l := by
  refine List.countP_mono_left fun t _ ht => ?_
  cases t <;> simp_all [Tri.pass]

/-- `findSome?` only depends on the values of the function on the list. -/
theorem findSome?_congr {α β : Type} (p q : α → Option β) :
    ∀ l : List α, (∀ x ∈ l, p x = q x) → l.findSome? p = l.findSome? q := by
  intro l
  induction l with
  | nil => intro _; rfl
  | cons a t ih =>
    intro h
    have ha := h a (List.mem_cons_self a t)
    have ht := ih fun x hx => h x (List.mem_cons_of_mem a hx)
    simp [List.findSome?_cons, ha, ht]

/-- `findSome?` returns the value at the first index where the function
succeeds. -/
theorem findSome?_of_prefix_none {α β : Type} (p : α → Option β) :
    ∀ (l : List α) (i : ℕ) (hi : i < l.length) (r : β),
      (∀ j (hj : j < i), p (l.get ⟨j, Nat.lt_trans hj hi⟩) = none) →
      p (l.get ⟨i, hi⟩) = some r → l.findSome? p = some r := by
  intro l
  induction l with
  | nil => intro i hi; exact absurd hi (Nat.not_lt_zero i)
  | cons a t ih =>
    intro i hi r hpre hsome
    cases i with
    | zero => simp [List.findSome?_cons, List.get] at hsome ⊢; simp [hsome]
    | succ n =>
      have ha : p a = none := hpre 0 (Nat.succ_pos n)
      have := ih n (Nat.lt_of_succ_lt_succ hi) r
        (fun j hj => hpre (j + 1) (Nat.succ_lt_succ hj)) hsome
      simp [List.findSome?_cons, ha, this]

/-- Lower bound of Python integer rounding. -/
theorem pyRoundInt_nonneg {q : ℚ} (h : 0 ≤ q) : 0 ≤ pyRoundInt q := by
  have hf : (0 : ℤ) ≤ ⌊q⌋ := Int.le_floor.mpr (by exact_mod_cast h)
  unfold pyRoundInt
  split
  · exact hf
  · split
    · omega
    · split <;> omega

/-- Upper bound of Python integer rounding by an integer bound. -/
theorem pyRoundInt_le {q : ℚ} {n : ℤ} (h : q ≤ (n : ℚ)) : pyRoundInt q ≤ n := by
  have hfn : ⌊q⌋ ≤ n := Int.floor_le_floor h |>.trans_eq (Int.floor_intCast n)
  rcases eq_or_lt_of_le hfn with heq | hlt
  · have hq : q - ⌊q⌋ ≤ 0 := by
      have : (⌊q⌋ : ℚ) = (n : ℚ) := by exact_mod_cast heq
      linarith
    unfold pyRoundInt
    have : q - ⌊q⌋ < 1/2 := by linarith
    simp only [if_pos this]
    exact hfn
  · unfold pyRoundInt
    split
    · omega
    · split
      · omega
      · split <;> omega

/-- `round(x, 2)` keeps values inside `[0, 100]`. -/
theorem pyRound2_mem_Icc {q : ℚ} (h0 : 0 ≤ q) (h1 : q ≤ 100) :
    0 ≤ pyRound2 q ∧ pyRound2 q ≤ 100 := by
  have hlo : (0 : ℤ) ≤ pyRoundInt (q * 100) := pyRoundInt_nonneg (by positivity)
  have hhi : pyRoundInt (q * 100) ≤ (10000 : ℤ) := pyRoundInt_le (by push_cast; linarith)
  constructor
  · unfold pyRound2
    positivity
  · unfold pyRound2
    rw [div_le_iff₀ (by norm_num)]
    exact_mod_cast le_trans (by exact_mod_cast hhi) (by norm_num)

end Helpers

/-- General-sector fundamentals with exactly four assessed criteria, all
passing: margin, ROE, the strong-ROE ROCE proxy, and promoter holding. -/
def scenarioFund : Fundamentals :=
  { gross_margin := some 30, roe := some 25, promoter_holding := some 60 }

/-- A fully-assessed general-sector fundamentals record: nine of ten
criteria pass (margin fails). -/
def fundNine : Fundamentals :=
  { gross_margin := some 10, roe := some 25, roce := some 20,
    de_ratio := some (1/2), ocf := some 100, total_debt := some 10,
    rev_cagr_3y := some 20, pat_cagr_3y := some 20,
    promoter_holding := some 60, fcf := some 50 }

/-- Like `fundNine` but with a passing margin: all ten criteria pass. -/
def fundTen : Fundamentals :=
  { fundNine with gross_margin := some 30 }

/-- Fundamentals with only a negative ROE reported. -/
def fundNegRoe : Fundamentals := { roe := some (-5) }

/-- Valuation input where two lenses apply (dividend-yield bonus +1 and
EV/EBITDA fair 0), total signal +1. -/
def valFundA : Fundamentals := { dividend_yield := some 4, ev_ebitda := some 15 }

/-- Valuation input with only EV/EBITDA: one lens applies, signal +1. -/
def valFundB : Fundamentals := { ev_ebitda := some 5 }

/-- Concrete support/resistance levels for verdict inputs. -/
def srW : SRLevels :=
  { high_52w := 120, low_52w := 80, immediate_support := 97,
    immediate_resistance := 105, strong_support := 94, strong_resistance := 110 }

/-- Technical analysis input scoring 5 of 7 (volume and RRR criteria
fail). -/
def techA : TechAnalysis :=
  { rsi := .fin 50
    macd := { macd := 1, signal := 0, histogram := 1, bullish := true }
    moving_averages := { current_price := 100, ma_20 := 98, ma_50 := some 95,
                         ma_200 := some 90, above_50_dma := some true,
                         above_200_dma := some true }
    support_resistance := srW
    volume := { volume_ratio := 4/5, above_average := false }
    candlestick := { patterns := [.bullishEngulfing], prior_trend := .downtrend }
    rrr := { rrr := 1, risk_pct := 3, reward_pct := 3, valid := false } }

/-- Like `techA` but with above-average volume: scores 6 of 7. -/
def techB : TechAnalysis :=
  { techA with volume := { volume_ratio := 3/2, above_average := true } }

/-- A red-flag report with a critical negative-ROE flag. -/
def redCritical : RedFlagReport :=
  { flags := [.negROE], count := 1, critical := true }

/-- C1: whenever the red-flag report is critical, `generate_verdict`
returns AVOID with HIGH confidence and position 0%, whatever the three
gate results are; and `check_red_flags` marks the report critical exactly
when its flag list contains an extreme-debt or a negative-ROE flag. -/
theorem critical_red_flag_forces_avoid_high :
    (∀ (fund : FundResult) (val : ValResult) (tech : TechResult)
        (red : RedFlagReport) (current : ℚ) (sr : SRLevels),
      red.critical = true →
      (generateVerdict fund val tech red current sr).verdict = .AVOID ∧
      (generateVerdict fund val tech red current sr).confidence = .HIGH ∧
      (generateVerdict fund val tech red current sr).position_pct = 0) ∧
    (∀ (f : Fundamentals) (st : SectorType),
      (checkRedFlags f st).critical = true ↔
      FlagKind.extremeDebt ∈ (checkRedFlags f st).flags ∨
      FlagKind.negROE ∈ (checkRedFlags f st).flags) := by
  constructor
  · intro fund val tech red current sr hcrit
    simp [generateVerdict, hcrit]
  · intro f st
    rw [show (checkRedFlags f st).critical
        = ((checkRedFlags f st).flags.any fun k =>
            k == FlagKind.extremeDebt || k == FlagKind.negROE) from rfl]
    simp only [List.any_eq_true, Bool.or_eq_true, beq_iff_eq]
    constructor
    · rintro ⟨k, hk, rfl | rfl⟩
      · exact Or.inl hk
      · exact Or.inr hk
    · rintro (hk | hk)
      · exact ⟨_, hk, Or.inl rfl⟩
      · exact ⟨_, hk, Or.inr rfl⟩

/-- C1 witness: the override applied at an all-gates-passing input with a
critical report, and the criticality test at a concrete fundamentals
record. -/
theorem critical_red_flag_forces_avoid_high_witness :
    (generateVerdict
        { checklist := [], score := 9, assessed := 10, total := 10,
          normalized := 9, pass_rate := 90, gate_pass := true }
        { verdict := .CHEAP, score_sum := 3, gate_pass := some true, peg := none }
        { checklist := [], score := 7, total := 7, pass_rate := 100,
          gate_pass := true }
        redCritical 100 srW).verdict = .AVOID ∧
    ((checkRedFlags fundNegRoe .general).critical = true ↔
      FlagKind.extremeDebt ∈ (checkRedFlags fundNegRoe .general).flags ∨
      FlagKind.negROE ∈ (checkRedFlags fundNegRoe .general).flags) :=
  ⟨(critical_red_flag_forces_avoid_high.1 _ _ _ redCritical 100 srW rfl).1,
   critical_red_flag_forces_avoid_high.2 fundNegRoe .general⟩

/-- The scenario fundamentals assess exactly criteria 1, 2, 3 and 9, all
passing. -/
theorem scenarioFund_checklist :
    generalChecklist scenarioFund =
      [.pass, .pass, .pass, .na, .na, .na, .na, .na, .pass, .na] := by
  norm_num [generalChecklist, genCrit1, genCrit2, genCrit3, genCrit4,
    genCrit5, genCrit5Coverage, genCrit6, genCrit7, genCrit8, genCrit9,
    genCrit10, pyOr, truthy, triOf, scenarioFund]

/-- The scenario result has exactly four assessed criteria. -/
theorem scenarioFund_assessed :
    (applyFundamentalChecklist scenarioFund .general).assessed = 4 := by
  show assessedOf (generalChecklist scenarioFund) = 4
  rw [scenarioFund_checklist]
  rfl

/-- The scenario result has exactly four passing criteria. -/
theorem scenarioFund_score :
    (applyFundamentalChecklist scenarioFund .general).score = 4 := by
  show scoreOf (generalChecklist scenarioFund) = 4
  rw [scenarioFund_checklist]
  rfl

/-- The gate-pass formula rejects a 4-of-4 result. -/
theorem fundGatePass_four_four : fundGatePass 4 4 = false := by
  simp [fundGatePass]

/-- C2: for every input the Gate 1 result's `gate_pass` follows the rule
`(assessed ≥ 5 ∧ score/assessed ≥ 0.7) ∨ score ≥ 7` and `normalized` is
`round(score/assessed × 10, 1)` (0 when nothing was assessed); any
general-sector result with exactly 4 assessed and 4 passing criteria fails
the gate, and `scenarioFund` realizes that situation. -/
theorem gate1_scoring_rule_and_four_of_four_scenario :
    (∀ (f : Fundamentals) (st : SectorType),
      (applyFundamentalChecklist f st).gate_pass =
        ((decide (5 ≤ (applyFundamentalChecklist f st).assessed) &&
          decide (((applyFundamentalChecklist f st).score : ℚ) /
            ((applyFundamentalChecklist f st).assessed : ℚ) ≥ 7/10)) ||
         decide (7 ≤ (applyFundamentalChecklist f st).score)) ∧
      (applyFundamentalChecklist f st).normalized =
        (if (applyFundamentalChecklist f st).assessed > 0 then
          pyRound1 (((applyFundamentalChecklist f st).score : ℚ) /
            ((applyFundamentalChecklist f st).assessed : ℚ) * 10)
         else 0)) ∧
    (∀ f : Fundamentals,
      (applyFundamentalChecklist f .general).assessed = 4 →
      (applyFundamentalChecklist f .general).score = 4 →
      (applyFundamentalChecklist f .general).gate_pass = false) ∧
    ((applyFundamentalChecklist scenarioFund .general).assessed = 4 ∧
     (applyFundamentalChecklist scenarioFund .general).score = 4 ∧
     (applyFundamentalChecklist scenarioFund .general).gate_pass = false) := by
  have rule : ∀ f : Fundamentals,
      (applyFundamentalChecklist f .general).assessed = 4 →
      (applyFundamentalChecklist f .general).score = 4 →
      (applyFundamentalChecklist f .general).gate_pass = false := by
    intro f ha hs
    have h : (applyFundamentalChecklist f .general).gate_pass =
        fundGatePass (applyFundamentalChecklist f .general).score
          (applyFundamentalChecklist f .general).assessed := rfl
    rw [h, ha, hs, fundGatePass_four_four]
  refine ⟨fun f st => ?_, rule,
    scenarioFund_assessed, scenarioFund_score,
    rule scenarioFund scenarioFund_assessed scenarioFund_score⟩
  cases st <;> exact ⟨rfl, rfl⟩

/-- C2 witness: the four-of-four rule applied to the concrete scenario
fundamentals. -/
theorem gate1_scoring_rule_and_four_of_four_scenario_witness :
    (applyFundamentalChecklist scenarioFund .general).gate_pass = false :=
  gate1_scoring_rule_and_four_of_four_scenario.2.1 scenarioFund
    scenarioFund_assessed scenarioFund_score

/-- C3: Gate 2's verdict is the fixed banding of the signal sum — ≥3 CHEAP,
0..2 FAIR, −2..−1 RICH, ≤−3 EXTREME, gate_pass true exactly for CHEAP/FAIR —
NOT_AVAILABLE with null gate_pass when no lens applied; two inputs whose
applied lenses have equal sums get identical verdicts and gate_pass. -/
theorem gate2_verdict_pure_function_of_signal_sum :
    (∀ (f : Fundamentals) (st : SectorType),
      (lensSignals f st = [] →
        (assessValuation f st).verdict = .NA ∧
        (assessValuation f st).gate_pass = none) ∧
      (lensSignals f st ≠ [] →
        (assessValuation f st).score_sum = (lensSignals f st).sum ∧
        (assessValuation f st).verdict =
          (valVerdictOfSum (assessValuation f st).score_sum).1 ∧
        (assessValuation f st).gate_pass =
          some (valVerdictOfSum (assessValuation f st).score_sum).2)) ∧
    (∀ s : ℤ,
      (3 ≤ s → valVerdictOfSum s = (.CHEAP, true)) ∧
      (0 ≤ s → s ≤ 2 → valVerdictOfSum s = (.FAIR, true)) ∧
      (-2 ≤ s → s ≤ -1 → valVerdictOfSum s = (.RICH, false)) ∧
      (s ≤ -3 → valVerdictOfSum s = (.EXTREME, false))) ∧
    (∀ (f : Fundamentals) (st : SectorType) (f' : Fundamentals) (st' : SectorType),
      lensSignals f st ≠ [] → lensSignals f' st' ≠ [] →
      (assessValuation f st).score_sum = (assessValuation f' st').score_sum →
      (assessValuation f st).verdict = (assessValuation f' st').verdict ∧
      (assessValuation f st).gate_pass = (assessValuation f' st').gate_pass) := by
  have main : ∀ (f : Fundamentals) (st : SectorType),
      (lensSignals f st = [] →
        (assessValuation f st).verdict = .NA ∧
        (assessValuation f st).gate_pass = none) ∧
      (lensSignals f st ≠ [] →
        (assessValuation f st).score_sum = (lensSignals f st).sum ∧
        (assessValuation f st).verdict =
          (valVerdictOfSum (assessValuation f st).score_sum).1 ∧
        (assessValuation f st).gate_pass =
          some (valVerdictOfSum (assessValuation f st).score_sum).2) := by
    intro f st
    constructor
    · intro h
      simp [assessValuation, h]
    · intro h
      have hne : (lensSignals f st).isEmpty = false := by
        simpa [List.isEmpty_iff] using h
      simp [assessValuation, hne]
  refine ⟨main, fun s => ?_, fun f st f' st' h h' hsum => ?_⟩
  · refine ⟨fun h3 => ?_, fun h0 h2 => ?_, fun hm2 hm1 => ?_, fun hm3 => ?_⟩ <;>
      · simp only [valVerdictOfSum]
        split_ifs <;> first | rfl | omega
  · obtain ⟨-, hv, hg⟩ := (main f st).2 h
    obtain ⟨-, hv', hg'⟩ := (main f' st').2 h'
    rw [hv, hv', hg, hg', hsum]
    exact ⟨rfl, rfl⟩

/-- The dividend-yield and EV/EBITDA lenses of `valFundA` give +1 and 0. -/
theorem lensSignals_valFundA : lensSignals valFundA .general = [1, 0] := by
  norm_num [lensSignals, pegSignal, pegValue, valGrowth, peSignal,
    pbRoeSignal, eySignal, dySignal, evSignal, truthy, valFundA,
    List.reduceOption]
  rfl

/-- The single EV/EBITDA lens of `valFundB` gives +1. -/
theorem lensSignals_valFundB : lensSignals valFundB .general = [1] := by
  norm_num [lensSignals, pegSignal, pegValue, valGrowth, peSignal,
    pbRoeSignal, eySignal, dySignal, evSignal, truthy, valFundB,
    List.reduceOption]
  rfl

/-- C3 witness: two different lens combinations with the same sum (+1) get
the same verdict. -/
theorem gate2_verdict_pure_function_of_signal_sum_witness :
    (assessValuation valFundA .general).verdict =
      (assessValuation valFundB .general).verdict :=
  (gate2_verdict_pure_function_of_signal_sum.2.2 valFundA .general
    valFundB .general (by simp [lensSignals_valFundA])
    (by simp [lensSignals_valFundB])
    (by simp [assessValuation, lensSignals_valFundA, lensSignals_valFundB])).1


/-- C4 counterexample: with current 10, support 5, resistance 11 the risk
(denominator) is 5 > 0, yet the validity flag is false because the ratio
0.2 is below 1.5 — so "invalid exactly when the denominator is
non-positive" fails. -/
theorem rrr_validity_claim_counterexample :
    ¬ (((calculateRRR 10 5 11).valid = false) ↔ ((10 : ℚ) - 5 ≤ 0)) := by
  have hv : (calculateRRR 10 5 11).valid = false := by
    norm_num [calculateRRR]
  rw [hv]
  norm_num

/-- C4 (amended): `calculate_rrr` returns the zeroed invalid result when
current − support ≤ 0; otherwise it reports
round((resistance − current)/(current − support), 2) and its validity flag
is the unrounded ratio being at least 1.5. -/
theorem rrr_reports_reward_over_risk :
    ∀ current support resistance : ℚ,
      (current - support ≤ 0 →
        calculateRRR current support resistance =
          { rrr := 0, risk_pct := 0, reward_pct := 0, valid := false }) ∧
      (0 < current - support →
        (calculateRRR current support resistance).rrr =
          pyRound2 ((resistance - current) / (current - support)) ∧
        ((calculateRRR current support resistance).valid = true ↔
          (resistance - current) / (current - support) ≥ 3/2)) := by
  intro current support resistance
  constructor
  · intro h
    simp [calculateRRR, h]
  · intro h
    have hn : ¬ (current - support ≤ 0) := not_le.mpr h
    rw [calculateRRR, if_neg hn]
    exact ⟨rfl, by simp⟩

/-- C4 witness: the positive-risk branch at current 10, support 5,
resistance 20. -/
theorem rrr_reports_reward_over_risk_witness :
    (calculateRRR 10 5 20).rrr = pyRound2 ((20 - 10) / (10 - 5)) ∧
    ((calculateRRR 10 5 20).valid = true ↔
      ((20 : ℚ) - 10) / (10 - 5) ≥ 3/2) :=
  (rrr_reports_reward_over_risk 10 5 20).2 (by norm_num)

/-- Primary fundamentals for the C5 counterexample: an insider percentage
and a P/E are present. -/
def primC5 : Fundamentals := { insider_pct := some 5, pe := some 12 }

/-- Secondary data for the C5 counterexample: a promoter holding and a
zero-valued P/E are supplied. -/
def scrC5 : ScreenerData := { promoter_holding := some 60, pe := some 0 }

/-- C5 counterexample: `insider_pct` is outside the claim's allow-list yet
is overwritten by the secondary promoter holding, and the supplied
(zero-valued) secondary P/E is NOT taken because the source checks it with
truthiness. -/
theorem merge_allowlist_claim_counterexample :
    (mergeScreener primC5 (some scrC5)).insider_pct ≠ primC5.insider_pct ∧
    scrC5.pe.isSome = true ∧
    (mergeScreener primC5 (some scrC5)).pe ≠ scrC5.pe := by
  refine ⟨?_, ?_, ?_⟩
  · simp [mergeScreener, primC5, scrC5, truthy]
  · rfl
  · simp [mergeScreener, primC5, scrC5, truthy]

/-- C5 (amended): the merge precedence of `get_fundamentals`.  Fields
checked with `is not None` (ROE, ROCE — annual figure preferred —, dividend
yield, D/E, both growth CAGRs, operating margin, promoter holding, OCF
unit-converted ×1e7, GNPA, NNPA, financing margin, FII/DII holdings) take
any present secondary value; PE, PB, book value, EPS and market cap
(unit-converted ×1e7) take the secondary value only when it is truthy
(present and nonzero); `insider_pct` is additionally overwritten with the
secondary promoter holding, and the data-source label records the merge;
every other field keeps the primary value; without secondary data the
primary record is returned unchanged. -/
theorem merge_precedence_table :
    ∀ (r : Fundamentals) (s : ScreenerData),
      ((mergeScreener r (some s)).roe
          = (if s.roe.isSome then s.roe else r.roe)) ∧
      ((mergeScreener r (some s)).roce
          = (if s.roce_annual.isSome then s.roce_annual
             else if s.roce.isSome then s.roce else r.roce)) ∧
      ((mergeScreener r (some s)).dividend_yield
          = (if s.dividend_yield.isSome then s.dividend_yield
             else r.dividend_yield)) ∧
      ((mergeScreener r (some s)).de_ratio
          = (if s.de_ratio.isSome then s.de_ratio else r.de_ratio)) ∧
      ((mergeScreener r (some s)).rev_cagr_3y
          = (if s.rev_cagr_3y.isSome then s.rev_cagr_3y else r.rev_cagr_3y)) ∧
      ((mergeScreener r (some s)).pat_cagr_3y
          = (if s.pat_cagr_3y.isSome then s.pat_cagr_3y else r.pat_cagr_3y)) ∧
      ((mergeScreener r (some s)).operating_margin
          = (if s.opm.isSome then s.opm else r.operating_margin)) ∧
      ((mergeScreener r (some s)).promoter_holding
          = (if s.promoter_holding.isSome then s.promoter_holding
             else r.promoter_holding)) ∧
      ((mergeScreener r (some s)).ocf
          = (if s.ocf_cr.isSome then s.ocf_cr.map (· * 10000000) else r.ocf)) ∧
      ((mergeScreener r (some s)).gnpa
          = (if s.gnpa.isSome then s.gnpa else r.gnpa)) ∧
      ((mergeScreener r (some s)).nnpa
          = (if s.nnpa.isSome then s.nnpa else r.nnpa)) ∧
      ((mergeScreener r (some s)).financing_margin
          = (if s.financing_margin.isSome then s.financing_margin
             else r.financing_margin)) ∧
      ((mergeScreener r (some s)).fii_holding
          = (if s.fii_holding.isSome then s.fii_holding else r.fii_holding)) ∧
      ((mergeScreener r (some s)).dii_holding
          = (if s.dii_holding.isSome then s.dii_holding else r.dii_holding)) ∧
      ((mergeScreener r (some s)).pe
          = (if truthy s.pe then s.pe else r.pe)) ∧
      ((mergeScreener r (some s)).pb
          = (if truthy s.pb then s.pb else r.pb)) ∧
      ((mergeScreener r (some s)).book_value
          = (if truthy s.book_value then s.book_value else r.book_value)) ∧
      ((mergeScreener r (some s)).eps
          = (if truthy s.eps then s.eps else r.eps)) ∧
      ((mergeScreener r (some s)).market_cap
          = (if truthy s.market_cap_cr then s.market_cap_cr.map (· * 10000000)
             else r.market_cap)) ∧
      ((mergeScreener r (some s)).insider_pct
          = (if s.promoter_holding.isSome then s.promoter_holding
             else r.insider_pct)) ∧
      ((mergeScreener r (some s)).data_source = "screener.in + yfinance") ∧
      ((mergeScreener r (some s)).sector = r.sector) ∧
      ((mergeScreener r (some s)).industry = r.industry) ∧
      ((mergeScreener r (some s)).forward_pe = r.forward_pe) ∧
      ((mergeScreener r (some s)).roa = r.roa) ∧
      ((mergeScreener r (some s)).current_ratio = r.current_ratio) ∧
      ((mergeScreener r (some s)).gross_margin = r.gross_margin) ∧
      ((mergeScreener r (some s)).profit_margin = r.profit_margin) ∧
      ((mergeScreener r (some s)).payout_ratio = r.payout_ratio) ∧
      ((mergeScreener r (some s)).revenue = r.revenue) ∧
      ((mergeScreener r (some s)).total_debt = r.total_debt) ∧
      ((mergeScreener r (some s)).total_cash = r.total_cash) ∧
      ((mergeScreener r (some s)).fcf = r.fcf) ∧
      ((mergeScreener r (some s)).earnings_growth_qoq = r.earnings_growth_qoq) ∧
      ((mergeScreener r (some s)).revenue_growth_qoq = r.revenue_growth_qoq) ∧
      ((mergeScreener r (some s)).beta = r.beta) ∧
      ((mergeScreener r (some s)).enterprise_value = r.enterprise_value) ∧
      ((mergeScreener r (some s)).ev_ebitda = r.ev_ebitda) ∧
      ((mergeScreener r (some s)).ev_revenue = r.ev_revenue) ∧
      (mergeScreener r none = r) := by
  intro r s
  repeat' apply And.intro
  all_goals rfl

/-- `round(100.0, 2) = 100.0`. -/
theorem pyRound2_hundred : pyRound2 100 = 100 := by
  have h : ⌊(100 * 100 : ℚ)⌋ = 10000 := by norm_num
  rw [pyRound2, pyRoundInt, h]
  norm_num

/-- The RSI pipeline value is a finite number in `[0, 100]` whenever the
gain and loss means are non-negative and not both zero. -/
theorem rsiPipeline_in_range {g l : ℚ} (hg : 0 ≤ g) (hl : 0 ≤ l)
    (hor : 0 < g ∨ 0 < l) :
    pfInRange (pyRound2F (rsiFromRS (pandasDiv g l))) = true := by
  rcases eq_or_lt_of_le hl with hl0 | hlpos
  · have hgpos : 0 < g := by
      rcases hor with h | h
      · exact h
      · exact absurd h (by rw [← hl0]; exact lt_irrefl 0)
    rw [pandasDiv, if_neg (by rw [← hl0]; simp), if_pos hgpos]
    show pfInRange (.fin (pyRound2 100)) = true
    rw [pyRound2_hundred]
    norm_num [pfInRange]
  · have hlne : l ≠ 0 := ne_of_gt hlpos
    rw [pandasDiv, if_pos hlne]
    have hq : 0 ≤ g / l := div_nonneg hg (le_of_lt hlpos)
    have h1q : 0 < 1 + g / l := by linarith
    show pfInRange (pyRound2F
      (if 1 + g/l ≠ 0 then PFloat.fin (100 - 100/(1 + g/l)) else .ninf)) = true
    rw [if_pos (ne_of_gt h1q)]
    show pfInRange (.fin (pyRound2 (100 - 100/(1 + g/l)))) = true
    have hub : 100/(1 + g/l) ≤ 100 := by
      rw [div_le_iff₀ h1q]
      nlinarith
    have hlb : 0 ≤ 100/(1 + g/l) := by positivity
    simp only [pfInRange, decide_eq_true_eq]
    exact pyRound2_mem_Icc (by linarith) (by linarith)

/-- `zipWith` ignores the unmatched trailing element of the longer list. -/
theorem zipWith_self_append_singleton (f : ℚ → ℚ → ℚ) (l : List ℚ) (x : ℚ) :
    List.zipWith f l (l ++ [x]) = List.zipWith f l l := by
  have h := List.zipWith_append f l [] l [x] rfl
  simpa using h

/-- A constant close series has an all-zero delta series. -/
theorem rsiDeltas_replicate (n : ℕ) (c : ℚ) :
    rsiDeltas (List.replicate (n + 1) c) = List.replicate n 0 := by
  rw [rsiDeltas, List.tail_replicate,
    show List.replicate (n + 1) c = List.replicate n c ++ [c] from
      List.replicate_succ' n c]
  simp only [Nat.add_sub_cancel]
  rw [zipWith_self_append_singleton, List.zipWith_replicate', sub_self]

/-- C6 counterexample: a 50-session series with constant closes has a
zero-gain, zero-loss rolling window, and the RSI comes out NaN — not a
value in `[0, 100]`. -/
theorem rsi_range_claim_counterexample :
    50 ≤ (List.replicate 50 (100:ℚ)).length ∧
    calculate_rsi (List.replicate 50 (100:ℚ)) = PFloat.nan ∧
    pfInRange (calculate_rsi (List.replicate 50 (100:ℚ))) = false := by
  have hdeltas : rsiDeltas (List.replicate 50 (100:ℚ)) = List.replicate 49 0 :=
    rsiDeltas_replicate 49 100
  have hwin : lastN 14 (rsiDeltas (List.replicate 50 (100:ℚ)))
      = List.replicate 14 (0:ℚ) := by
    rw [hdeltas, lastN, List.length_replicate, List.drop_replicate]
  have hcal : calculate_rsi (List.replicate 50 (100:ℚ)) = PFloat.nan := by
    rw [calculate_rsi, if_neg (by simp), hwin]
    simp only [List.map_replicate, List.sum_replicate, max_self, smul_zero,
      zero_div]
    rw [show max (-(0:ℚ)) 0 = 0 by norm_num]
    simp only [List.sum_replicate, smul_zero, zero_div]
    rw [pandasDiv, if_neg (by norm_num), if_neg (by norm_num),
      if_neg (by norm_num)]
    rfl
  exact ⟨by simp, hcal, by rw [hcal]; rfl⟩

/-- C6 (amended): for a resolver-accepted series (≥ 50 sessions) whose last
14-session delta window is not entirely flat, RSI(14) is a finite value in
`[0, 100]`; the zero-loss convention is RSI = 100 exactly (gains present,
no losses).  When the window is entirely flat both rolling means are zero
and the result is NaN (see the counterexample), so the original "always in
[0, 100]" fails only there. -/
theorem rsi_in_range_unless_flat_window :
    ∀ closes : List ℚ, 50 ≤ closes.length →
      ((∃ d ∈ lastN 14 (rsiDeltas closes), d ≠ 0) →
        pfInRange (calculate_rsi closes) = true) ∧
      ((∀ d ∈ lastN 14 (rsiDeltas closes), 0 ≤ d) →
        (∃ d ∈ lastN 14 (rsiDeltas closes), d ≠ 0) →
        calculate_rsi closes = .fin 100) := by
  intro closes hlen
  have h15 : ¬ (closes.length < 15) := by omega
  have hcal : calculate_rsi closes =
      pyRound2F (rsiFromRS (pandasDiv
        (((lastN 14 (rsiDeltas closes)).map fun d => max d 0).sum / 14)
        (((lastN 14 (rsiDeltas closes)).map fun d => max (-d) 0).sum / 14))) := by
    rw [calculate_rsi, if_neg h15]
  have hgain0 : 0 ≤ ((lastN 14 (rsiDeltas closes)).map fun d => max d 0).sum :=
    List.sum_nonneg fun x hx => by
      obtain ⟨d, -, rfl⟩ := List.mem_map.mp hx
      exact le_max_right d 0
  have hloss0 : 0 ≤ ((lastN 14 (rsiDeltas closes)).map fun d => max (-d) 0).sum :=
    List.sum_nonneg fun x hx => by
      obtain ⟨d, -, rfl⟩ := List.mem_map.mp hx
      exact le_max_right (-d) 0
  constructor
  · rintro ⟨d, hd, hdne⟩
    rw [hcal]
    refine rsiPipeline_in_range (by positivity) (by positivity) ?_
    rcases lt_or_gt_of_ne hdne with hneg | hpos
    · right
      have hmem : max (-d) 0 ∈ (lastN 14 (rsiDeltas closes)).map
          (fun d => max (-d) 0) := List.mem_map_of_mem _ hd
      have hle := List.single_le_sum (l := (lastN 14 (rsiDeltas closes)).map
          fun d => max (-d) 0)
        (fun x hx => by
          obtain ⟨e, -, rfl⟩ := List.mem_map.mp hx
          exact le_max_right (-e) 0) _ hmem
      have hdp : 0 < max (-d) 0 :=
        lt_of_lt_of_le (by linarith) (le_max_left (-d) 0)
      have : 0 < ((lastN 14 (rsiDeltas closes)).map fun d => max (-d) 0).sum :=
        lt_of_lt_of_le hdp hle
      positivity
    · left
      have hmem : max d 0 ∈ (lastN 14 (rsiDeltas closes)).map
          (fun d => max d 0) := List.mem_map_of_mem _ hd
      have hle := List.single_le_sum (l := (lastN 14 (rsiDeltas closes)).map
          fun d => max d 0)
        (fun x hx => by
          obtain ⟨e, -, rfl⟩ := List.mem_map.mp hx
          exact le_max_right e 0) _ hmem
      have hdp : 0 < max d 0 := lt_of_lt_of_le hpos (le_max_left d 0)
      have : 0 < ((lastN 14 (rsiDeltas closes)).map fun d => max d 0).sum :=
        lt_of_lt_of_le hdp hle
      positivity
  · rintro hall ⟨d, hd, hdne⟩
    have hlz : ((lastN 14 (rsiDeltas closes)).map fun d => max (-d) 0).sum = 0 :=
      List.sum_eq_zero fun x hx => by
        obtain ⟨e, he, rfl⟩ := List.mem_map.mp hx
        exact max_eq_right (neg_nonpos.mpr (hall e he))
    have hgpos : 0 < ((lastN 14 (rsiDeltas closes)).map fun d => max d 0).sum := by
      have hdpos : 0 < d := lt_of_le_of_ne (hall d hd) (Ne.symm hdne)
      have hmem : max d 0 ∈ (lastN 14 (rsiDeltas closes)).map
          (fun d => max d 0) := List.mem_map_of_mem _ hd
      have hle := List.single_le_sum (l := (lastN 14 (rsiDeltas closes)).map
          fun d => max d 0)
        (fun x hx => by
          obtain ⟨e, -, rfl⟩ := List.mem_map.mp hx
          exact le_max_right e 0) _ hmem
      have hdp : 0 < max d 0 := lt_of_lt_of_le hdpos (le_max_left d 0)
      linarith
    rw [hcal, hlz, zero_div]
    have hgm : 0 < ((lastN 14 (rsiDeltas closes)).map fun d => max d 0).sum / 14 := by
      positivity
    rw [pandasDiv, if_neg (by simp), if_pos hgm]
    show PFloat.fin (pyRound2 100) = .fin 100
    rw [pyRound2_hundred]

/-- Witness close series: 49 flat sessions then one up-tick. -/
def wClose : List ℚ := List.replicate 49 100 ++ [101]

/-- The last 14 deltas of the witness series: 13 flat, one +1. -/
theorem wClose_window :
    lastN 14 (rsiDeltas wClose) = List.replicate 13 0 ++ [1] := by
  have hdel : rsiDeltas wClose = List.replicate 48 0 ++ [1] := by
    rw [rsiDeltas, wClose,
      List.tail_append_of_ne_nil (by simp : List.replicate 49 (100:ℚ) ≠ []),
      List.tail_replicate,
      show List.replicate 49 (100:ℚ) ++ [101]
          = List.replicate 48 100 ++ ([100] ++ [101]) by
        rw [← List.append_assoc, ← List.replicate_succ' 48 (100:ℚ)]]
    rw [List.zipWith_append _ _ _ _ _ (by simp)]
    rw [List.zipWith_replicate', sub_self]
    norm_num [List.zipWith]
  rw [hdel, lastN]
  simp only [List.length_append, List.length_replicate, List.length_cons,
    List.length_nil]
  rw [List.drop_append_of_le_length (by simp), List.drop_replicate]

/-- C6 witness: the amended range statement and the RSI = 100 zero-loss
convention applied to the witness series. -/
theorem rsi_in_range_unless_flat_window_witness :
    pfInRange (calculate_rsi wClose) = true ∧ calculate_rsi wClose = .fin 100 :=
  ⟨(rsi_in_range_unless_flat_window wClose (by simp [wClose])).1
      (by rw [wClose_window]; exact ⟨1, by simp, by norm_num⟩),
   (rsi_in_range_unless_flat_window wClose (by simp [wClose])).2
      (by
        rw [wClose_window]
        intro d hd
        rcases List.mem_append.mp hd with h | h
        · rw [List.eq_of_mem_replicate h]
        · rw [List.mem_singleton.mp h]; norm_num)
      (by rw [wClose_window]; exact ⟨1, by simp, by norm_num⟩)⟩

/-- C7: the resolver tries the symbol as-is when it carries a dot suffix or
a caret index marker, else bare then the `.NS`/`.BO` variants; it accepts
the first attempt whose series has ≥ 50 sessions; a provider error fails
only its own attempt (equivalent to that attempt returning no data); and
when every attempt fails the outcome is the typed `(none, symbol.upper())`
result — by construction no exception escapes. -/
theorem resolver_order_acceptance_error_isolation :
    (∀ s : SymStr, (s.contains '.' || s.contains '^') = false →
      attemptsFor s = [s, s ++ ".NS".data, s ++ ".BO".data]) ∧
    (∀ s : SymStr, (s.contains '.' || s.contains '^') = true →
      attemptsFor s = [s]) ∧
    (∀ (fetch : SymStr → Except Unit (List ℚ)) (s : SymStr),
      (∀ a ∈ attemptsFor (symTrim s), attemptSuccess fetch a = none) →
      resolveTicker fetch s = (none, symUpper (symTrim s))) ∧
    (∀ (fetch : SymStr → Except Unit (List ℚ)) (s : SymStr) (i : ℕ)
        (d : List ℚ) (u : SymStr) (hi : i < (attemptsFor (symTrim s)).length),
      (∀ j (hj : j < i),
        attemptSuccess fetch
          ((attemptsFor (symTrim s)).get ⟨j, Nat.lt_trans hj hi⟩) = none) →
      attemptSuccess fetch ((attemptsFor (symTrim s)).get ⟨i, hi⟩) = some (d, u) →
      resolveTicker fetch s = (some d, u)) ∧
    (∀ (fetch : SymStr → Except Unit (List ℚ)) (s a : SymStr),
      fetch a = .error () →
      resolveTicker fetch s
        = resolveTicker (Function.update fetch a (.ok [])) s) := by
  refine ⟨fun s h => ?_, fun s h => ?_, fun fetch s h => ?_,
    fun fetch s i d u hi hpre hacc => ?_, fun fetch s a herr => ?_⟩
  · simp only [attemptsFor, h]
    rfl
  · simp only [attemptsFor, h]
    rfl
  · have hnone : (attemptsFor (symTrim s)).findSome? (attemptSuccess fetch) = none :=
      List.findSome?_eq_none_iff.mpr h
    simp only [resolveTicker, hnone]
  · have hsome : (attemptsFor (symTrim s)).findSome? (attemptSuccess fetch)
        = some (d, u) :=
      findSome?_of_prefix_none (attemptSuccess fetch) (attemptsFor (symTrim s))
        i hi (d, u) hpre hacc
    simp only [resolveTicker, hsome]
  · have hcong : (attemptsFor (symTrim s)).findSome? (attemptSuccess fetch)
        = (attemptsFor (symTrim s)).findSome?
            (attemptSuccess (Function.update fetch a (.ok []))) := by
      apply findSome?_congr
      intro x _
      by_cases hxa : x = a
      · subst hxa
        rw [attemptSuccess, herr, attemptSuccess, Function.update_same]
        simp
      · rw [attemptSuccess, attemptSuccess, Function.update_noteq hxa]
    simp only [resolveTicker, hcong]

/-- Provider used by the C7 witness: only the `.NS` variant returns data,
the bare attempt raises. -/
def fetchW : SymStr → Except Unit (List ℚ) := fun a =>
  if a = "TCS.NS".data then .ok (List.replicate 60 1) else .error ()

/-- C7 witness: with a provider that raises on the bare symbol and serves a
60-session series for the `.NS` variant, the resolver returns that second
attempt. -/
theorem resolver_order_acceptance_error_isolation_witness :
    resolveTicker fetchW "TCS".data = (some (List.replicate 60 1), "TCS.NS".data) :=
  resolver_order_acceptance_error_isolation.2.2.2.1 fetchW "TCS".data 1
    (List.replicate 60 1) "TCS.NS".data (by decide)
    (fun j hj => by
      have hj0 : j = 0 := Nat.lt_one_iff.mp hj
      subst hj0
      rfl)
    (by rfl)

/-- The Gate 1 pass rule is monotone in the score at fixed assessed
count. -/
theorem fundGatePass_mono {s s' a : ℕ} (hss : s ≤ s')
    (h : fundGatePass s a = true) : fundGatePass s' a = true := by
  simp only [fundGatePass, Bool.or_eq_true, Bool.and_eq_true,
    decide_eq_true_eq] at h ⊢
  rcases h with ⟨h5, hdiv⟩ | h7
  · left
    refine ⟨h5, ?_⟩
    have ha : (0:ℚ) < a := by
      exact_mod_cast Nat.lt_of_lt_of_le (by norm_num) h5
    rw [ge_iff_le, le_div_iff₀ ha] at hdiv ⊢
    have hcast : (s:ℚ) ≤ s' := by exact_mod_cast hss
    linarith
  · right
    omega

/-- Both gate-pass projections are the stated score rules. -/
theorem applyFundamentalChecklist_gate_pass (f : Fundamentals) (st : SectorType) :
    (applyFundamentalChecklist f st).gate_pass =
      fundGatePass (applyFundamentalChecklist f st).score
        (applyFundamentalChecklist f st).assessed := by
  cases st <;> rfl

/-- C8: for both Gate 1 and Gate 3, a result that passes keeps passing when
the score strictly increases at the same assessed count (Gate 3 always
assesses all 7 criteria). -/
theorem gate_pass_monotonic_in_score :
    (∀ (f f' : Fundamentals) (st st' : SectorType),
      (applyFundamentalChecklist f st).assessed
          = (applyFundamentalChecklist f' st').assessed →
      (applyFundamentalChecklist f st).score
          < (applyFundamentalChecklist f' st').score →
      (applyFundamentalChecklist f st).gate_pass = true →
      (applyFundamentalChecklist f' st').gate_pass = true) ∧
    (∀ t t' : TechAnalysis,
      (applyChecklist t).score < (applyChecklist t').score →
      (applyChecklist t).gate_pass = true →
      (applyChecklist t').gate_pass = true) := by
  constructor
  · intro f f' st st' hass hsc hp
    rw [applyFundamentalChecklist_gate_pass] at hp ⊢
    rw [← hass]
    exact fundGatePass_mono (le_of_lt hsc) hp
  · intro t t' hsc hp
    have e : ∀ u : TechAnalysis, (applyChecklist u).gate_pass =
        techGatePass (applyChecklist u).score := fun _ => rfl
    rw [e] at hp ⊢
    simp only [techGatePass, decide_eq_true_eq] at hp ⊢
    omega

/-- `fundNine` fails only the margin criterion. -/
theorem fundNine_checklist :
    generalChecklist fundNine =
      [.fail, .pass, .pass, .pass, .pass, .pass, .pass, .pass, .pass, .pass] := by
  norm_num [generalChecklist, genCrit1, genCrit2, genCrit3, genCrit4,
    genCrit5, genCrit5Coverage, genCrit6, genCrit7, genCrit8, genCrit9,
    genCrit10, pyOr, truthy, triOf, fundNine]

/-- `fundTen` passes all ten criteria. -/
theorem fundTen_checklist :
    generalChecklist fundTen =
      [.pass, .pass, .pass, .pass, .pass, .pass, .pass, .pass, .pass, .pass] := by
  norm_num [generalChecklist, genCrit1, genCrit2, genCrit3, genCrit4,
    genCrit5, genCrit5Coverage, genCrit6, genCrit7, genCrit8, genCrit9,
    genCrit10, pyOr, truthy, triOf, fundTen, fundNine]

/-- `techA` fails exactly the volume and RRR criteria. -/
theorem techA_checklist :
    (applyChecklist techA).checklist =
      [true, true, true, false, false, true, true] := by
  norm_num [applyChecklist, techA, srW, hasBullishPattern, hasBearishPattern,
    PFloat.ltQ]

/-- `techB` fails exactly the RRR criterion. -/
theorem techB_checklist :
    (applyChecklist techB).checklist =
      [true, true, true, true, false, true, true] := by
  norm_num [applyChecklist, techB, techA, srW, hasBullishPattern,
    hasBearishPattern, PFloat.ltQ]

/-- C8 witness: raising the Gate 1 score 9 → 10 at assessed 10, and the
Gate 3 score 5 → 6, preserves the pass. -/
theorem gate_pass_monotonic_in_score_witness :
    (applyFundamentalChecklist fundTen .general).gate_pass = true ∧
    (applyChecklist techB).gate_pass = true := by
  have ha9 : (applyFundamentalChecklist fundNine .general).assessed = 10 := by
    show assessedOf (generalChecklist fundNine) = 10
    rw [fundNine_checklist]; rfl
  have ha10 : (applyFundamentalChecklist fundTen .general).assessed = 10 := by
    show assessedOf (generalChecklist fundTen) = 10
    rw [fundTen_checklist]; rfl
  have hs9 : (applyFundamentalChecklist fundNine .general).score = 9 := by
    show scoreOf (generalChecklist fundNine) = 9
    rw [fundNine_checklist]; rfl
  have hs10 : (applyFundamentalChecklist fundTen .general).score = 10 := by
    show scoreOf (generalChecklist fundTen) = 10
    rw [fundTen_checklist]; rfl
  have hp9 : (applyFundamentalChecklist fundNine .general).gate_pass = true := by
    rw [applyFundamentalChecklist_gate_pass, hs9, ha9]
    rw [fundGatePass, decide_eq_true (by norm_num : (5:ℕ) ≤ 10),
      decide_eq_true (show ((9:ℕ):ℚ) / (10:ℕ) ≥ 7/10 by norm_num)]
    rfl
  have hta : (applyChecklist techA).score = 5 := by
    have h : (applyChecklist techA).score
        = (applyChecklist techA).checklist.count true := rfl
    rw [h, techA_checklist]; rfl
  have htb : (applyChecklist techB).score = 6 := by
    have h : (applyChecklist techB).score
        = (applyChecklist techB).checklist.count true := rfl
    rw [h, techB_checklist]; rfl
  have hpa : (applyChecklist techA).gate_pass = true := by
    have h : (applyChecklist techA).gate_pass
        = techGatePass (applyChecklist techA).score := rfl
    rw [h, hta]; rfl
  exact ⟨gate_pass_monotonic_in_score.1 fundNine fundTen .general .general
      (by rw [ha9, ha10]) (by rw [hs9, hs10]; norm_num) hp9,
    gate_pass_monotonic_in_score.2 techA techB
      (by rw [hta, htb]; norm_num) hpa⟩

/-- C9: Gate 1 is total — its score never exceeds the assessed count, at
most 10 criteria are assessed, the total is fixed at 10, and `gate_pass` is
a genuine boolean; with nothing assessed the conjunction short-circuits
(assessed ≥ 5 is already false), the gate fails, `normalized` is 0 and
`pass_rate` uses the guarded denominator `max(assessed, 1)`. -/
theorem gate1_total_and_safe_on_zero_assessed :
    ∀ (f : Fundamentals) (st : SectorType),
      ((applyFundamentalChecklist f st).score
          ≤ (applyFundamentalChecklist f st).assessed ∧
       (applyFundamentalChecklist f st).assessed ≤ 10 ∧
       (applyFundamentalChecklist f st).total = 10 ∧
       (applyFundamentalChecklist f st).pass_rate =
         pyRound1 (((applyFundamentalChecklist f st).score : ℚ) /
           (max (applyFundamentalChecklist f st).assessed 1) * 100)) ∧
      ((applyFundamentalChecklist f st).assessed = 0 →
        (applyFundamentalChecklist f st).gate_pass = false ∧
        (applyFundamentalChecklist f st).normalized = 0) := by
  intro f st
  have hsc : (applyFundamentalChecklist f st).score =
      scoreOf (applyFundamentalChecklist f st).checklist := by
    cases st <;> rfl
  have has : (applyFundamentalChecklist f st).assessed =
      assessedOf (applyFundamentalChecklist f st).checklist := by
    cases st <;> rfl
  have hlen : (applyFundamentalChecklist f st).checklist.length = 10 := by
    cases st <;> rfl
  have hscle : (applyFundamentalChecklist f st).score
      ≤ (applyFundamentalChecklist f st).assessed := by
    rw [hsc, has]
    exact scoreOf_le_assessedOf _
  constructor
  · refine ⟨hscle, ?_, by cases st <;> rfl, by cases st <;> rfl⟩
    rw [has]
    exact le_trans (List.countP_le_length _) (le_of_eq hlen)
  · intro ha0
    have hs0 : (applyFundamentalChecklist f st).score = 0 := by omega
    constructor
    · rw [applyFundamentalChecklist_gate_pass, hs0, ha0]
      simp [fundGatePass]
    · have e : (applyFundamentalChecklist f st).normalized =
          (if (applyFundamentalChecklist f st).assessed > 0 then
            pyRound1 (((applyFundamentalChecklist f st).score : ℚ) /
              ((applyFundamentalChecklist f st).assessed : ℚ) * 10)
           else 0) := by
        cases st <;> rfl
      rw [e, ha0]
      simp

/-- C9 witness: an empty fundamentals record assesses nothing, and the
gate safely fails with normalized 0. -/
theorem gate1_total_and_safe_on_zero_assessed_witness :
    (applyFundamentalChecklist {} .general).gate_pass = false ∧
    (applyFundamentalChecklist {} .general).normalized = 0 :=
  (gate1_total_and_safe_on_zero_assessed {} .general).2 rfl

/-- C10: for banking and NBFC inputs the red-flag report is critical
exactly when a negative ROE is reported: the negative-OCF and extreme-debt
flags are suppressed for these sectors, and the low-promoter flag is never
critical. -/
theorem banking_critical_iff_negative_roe :
    ∀ (f : Fundamentals) (st : SectorType), st = .banking ∨ st = .nbfc →
      ((checkRedFlags f st).critical = true ↔ ∃ r, f.roe = some r ∧ r < 0) ∧
      FlagKind.negOCF ∉ (checkRedFlags f st).flags ∧
      FlagKind.extremeDebt ∉ (checkRedFlags f st).flags := by
  intro f st hst
  rcases hst with rfl | rfl <;>
    rcases hocf : f.ocf with _ | o <;>
    rcases hde : f.de_ratio with _ | de <;>
    rcases hroe : f.roe with _ | r <;>
    rcases hprom : pyOr f.promoter_holding f.insider_pct with _ | p <;>
    simp only [checkRedFlags, hocf, hde, hroe, hprom] <;>
    (try split_ifs) <;>
    simp_all [List.any_eq_true]

/-- C10 witness: a banking input with ROE −5 is critical. -/
theorem banking_critical_iff_negative_roe_witness :
    (checkRedFlags fundNegRoe .banking).critical = true :=
  (banking_critical_iff_negative_roe fundNegRoe .banking (Or.inl rfl)).1.mpr
    ⟨-5, rfl, by norm_num⟩
